import Mathlib

/-!
# Verification of the risk-district map application (`app.py`)

A shallow embedding of the geocode-and-overlay rendering pipeline of
`app.py`: the Kakao geocoder wrapper `lat_long`, the address marker
helper `mark_address_on_map`, the module-level map setup (center/zoom
choice and the circle-building loop over the CSV rows), and the
`make_additional_plot` aggregation of risk-factor descriptions.

Python floats are modelled as rationals, nullable dataframe cells as
`Option`, and the outcome of the geocoder HTTP interaction as an
inductive `GeoResponse` covering network failure, malformed/empty
bodies, and well-formed document lists.
-/

set_option autoImplicit false

namespace App

/-- Digits of a decimal literal folded to a natural number; `none` when the
list is empty or holds a non-digit character. Models the digit-sequence part
of Python `float()` parsing. -/
def decDigits (cs : List Char) : Option Nat :=
  if cs.isEmpty then none
  else
    cs.foldl
      (fun acc c =>
        match acc with
        | none => none
        | some n => if c.isDigit then some (10 * n + (c.toNat - 48)) else none)
      (some 0)

/-- Unsigned decimal literal (`"12"`, `"12.5"`, `".5"`, `"12."`) read as a
rational; `none` on malformed input. Models the unsigned case of Python
`float()` on decimal literals. -/
def parseUnsigned (cs : List Char) : Option ℚ :=
  let intPart := cs.takeWhile (fun c => c ≠ '.')
  match cs.dropWhile (fun c => c ≠ '.') with
  | [] => (decDigits intPart).map (fun n => mkRat n 1)
  | _ :: frac =>
      if frac.any (fun c => c = '.') then none
      else if intPart.isEmpty && frac.isEmpty then none
      else
        match (if intPart.isEmpty then some 0 else decDigits intPart),
              (if frac.isEmpty then some 0 else decDigits frac) with
        | some ip, some fp =>
            some (mkRat (ip * 10 ^ frac.length + fp) (10 ^ frac.length))
        | _, _ => none

/-- Surrounding whitespace stripped from a character list; Python `float()`
ignores leading and trailing whitespace. -/
def stripWs (cs : List Char) : List Char :=
  ((cs.dropWhile Char.isWhitespace).reverse.dropWhile Char.isWhitespace).reverse

/-- Python `float(s)` on decimal literals: optional surrounding whitespace,
optional sign, digits, optional fractional part; `none` models the
`ValueError` raised on malformed input. -/
def parseFloat (s : String) : Option ℚ :=
  match stripWs s.data with
  | '-' :: rest => (parseUnsigned rest).map (fun q => -q)
  | '+' :: rest => parseUnsigned rest
  | cs => parseUnsigned cs

/-- The `address` object of one entry of the geocoder's `documents` array:
`x` and `y` are numeric-string longitude/latitude, as sent on the wire. -/
structure KAddress where
  x : String
  y : String
  deriving DecidableEq, Repr

/-- One entry of the geocoder's `documents` array; the `address` object may
be absent (`json_result['documents'][0]['address']` then raises `KeyError`). -/
structure KDoc where
  address : Option KAddress
  deriving DecidableEq, Repr

/-- Outcome of the geocoder HTTP interaction observed by `lat_long`:
`netErr` — `requests.get` raised (network failure);
`badBody` — `response.json()` failed or the body has no `documents` array
(this also covers non-2xx responses, whose error bodies lack `documents`);
`ok docs` — a well-formed body whose `documents` array is `docs`. -/
inductive GeoResponse where
  | netErr : GeoResponse
  | badBody : GeoResponse
  | ok : List KDoc → GeoResponse
  deriving DecidableEq, Repr

/-- `lat_long(address, rest_api_key)` from `app.py`, lines 101–111, as a
function of the HTTP interaction's outcome. The `try` block indexes
`documents[0].address` and casts its `x`/`y` strings with `float`; every
exception (network, parse, `KeyError`, `IndexError`, `ValueError`) is caught
and turned into the null pair `(None, None)`. -/
def lat_long (resp : GeoResponse) : Option ℚ × Option ℚ :=
  match resp with
  | .netErr => (none, none)
  | .badBody => (none, none)
  | .ok [] => (none, none)
  | .ok (d :: _) =>
      match d.address with
      | none => (none, none)
      | some a =>
          match parseFloat a.x, parseFloat a.y with
          | some fx, some fy => (some fx, some fy)
          | _, _ => (none, none)

/-- A failing geocoder interaction: network failure, malformed body (which
covers non-2xx error bodies), empty `documents`, a first document without an
`address` object, or non-numeric coordinate strings. -/
def GeoResponse.failing : GeoResponse → Prop
  | .netErr => True
  | .badBody => True
  | .ok [] => True
  | .ok (d :: _) =>
      match d.address with
      | none => True
      | some a => parseFloat a.x = none ∨ parseFloat a.y = none

instance : DecidablePred GeoResponse.failing := fun resp =>
  match resp with
  | .netErr => isTrue trivial
  | .badBody => isTrue trivial
  | .ok [] => isTrue trivial
  | .ok (⟨none⟩ :: _) => isTrue trivial
  | .ok (⟨some a⟩ :: _) =>
      inferInstanceAs (Decidable (parseFloat a.x = none ∨ parseFloat a.y = none))

/-- The fixed Kakao address-search endpoint of `app.py`, line 102. -/
def kakaoEndpoint : String :=
  "https://dapi.kakao.com/v2/local/search/address.json?query="

/-- The URL built by `lat_long`: the raw address text concatenated after
`?query=` (line 102). -/
def kakaoUrl (address : String) : String :=
  kakaoEndpoint ++ address

/-- The `Authorization` header value built by `lat_long` (line 103). -/
def kakaoAuth (rest_api_key : String) : String :=
  "KakaoAK " ++ rest_api_key

/-- The HTTP GET request issued by `lat_long`: its URL and its
`Authorization` header value. -/
structure HttpRequest where
  url : String
  authorization : String
  deriving DecidableEq, Repr

/-- The single request a call of `lat_long` issues (lines 102–105). -/
def latLongRequest (address rest_api_key : String) : HttpRequest :=
  { url := kakaoUrl address, authorization := kakaoAuth rest_api_key }

/-- The geocode requests one rendering pass issues, in program order:
line 145 (`if address:` center computation) and line 180
(`mark_address_on_map`, whose body calls `lat_long` at line 115). Both
sites are guarded by the truthiness of `address` (nonempty string). -/
def passGeocodeRequests (address rest_api_key : String) : List HttpRequest :=
  (if address ≠ "" then [latLongRequest address rest_api_key] else []) ++
  (if address ≠ "" then [latLongRequest address rest_api_key] else [])

/-- One row of the `crisis_address(utf-8).csv` dataframe. The coordinate and
area cells may be null (`pd.notnull` is tested on them); the code fields
are integers; the remaining descriptive cells are kept as the text the
f-string interpolates; `RSK_FACTR_CN` may be null (it is `dropna`-ed). -/
structure Row where
  x : Option ℚ
  y : Option ℚ
  nm : String
  grdCd : Int
  typeCd : Int
  dstrctCd : String
  rgnCd : String
  fcltNm : String
  dsgnYmd : String
  dsgnRsn : String
  dsgnArea : Option ℚ
  rskFactrCn : Option String
  deriving DecidableEq, Repr

/-- `color_map` of `app.py`, lines 135–142, together with the
`color_map.get(code, 'red')` lookup of line 167: the fixed dict keyed on
the type code, with `'red'` the default for unknown keys. -/
def color_map (typeCd : Int) : String :=
  if typeCd = 1 then "blue"
  else if typeCd = 2 then "purple"
  else if typeCd = 3 then "gray"
  else if typeCd = 4 then "orange"
  else if typeCd = 5 then "green"
  else if typeCd = 6 then "darkblue"
  else "red"

/-- The `popup_content` f-string of `app.py`, lines 154–163: it interpolates
the eight fields `DST_RSK_DSTRCT_NM`, `DST_RSK_DSTRCT_GRD_CD`,
`DST_RSK_DSTRCT_TYPE_CD`, `DST_RSK_DSTRCTCD`, `DST_RSK_DSTRCT_RGN_CD`,
`FCLT_NM`, `DSGN_YMD` and `DSGN_RSN`. -/
def popup_content (r : Row) : String :=
  "\n        <b>재해위험지구관리번호:</b> " ++ r.nm ++
  "<br>\n        <b>재해위험지구등급코드:</b> " ++ toString r.grdCd ++
  "<br>\n        <b>재해위험지구유형코드:</b> " ++ toString r.typeCd ++
  "<br>\n        <b>재해위험지구코드:</b> " ++ r.dstrctCd ++
  "<br>\n        <b>재해위험지구지역코드:</b> " ++ r.rgnCd ++
  "<br>\n        <b>시설명:</b> " ++ r.fcltNm ++
  "<br>\n        <b>지정일자:</b> " ++ r.dsgnYmd ++
  "<br>\n        <b>지정사유:</b> " ++ r.dsgnRsn ++
  "\n        "

/-- One `folium.Circle` of the loop at lines 169–177. The source computes
`radius = row['DSGN_AREA'] ** 0.5` and passes it; the real square root is
not computable, so the circle stores the area and `Circle.radius` derives
the radius from it. `location=[row['y'], row['x']]` is kept as
`(lat, lng)`, `color` and `fill_color` both receive the looked-up color. -/
structure Circle where
  lat : ℚ
  lng : ℚ
  area : ℚ
  color : String
  fillColor : String
  popup : String
  deriving DecidableEq, Repr

/-- `radius = (row['DSGN_AREA'] ** 0.5)`, line 166. -/
noncomputable def Circle.radius (c : Circle) : ℝ :=
  Real.sqrt (c.area : ℝ)

/-- The body of the circle-building loop, lines 152–177, for one row: the
guard `pd.notnull(row['y']) and pd.notnull(row['x']) and
pd.notnull(row['DSGN_AREA'])` selects the row, and the circle is built
from it; a row failing the guard produces nothing. -/
def rowCircle (r : Row) : Option Circle :=
  match r.y, r.x, r.dsgnArea with
  | some y, some x, some a =>
      some { lat := y, lng := x, area := a,
             color := color_map r.typeCd, fillColor := color_map r.typeCd,
             popup := popup_content r }
  | _, _, _ => none

/-- The circle-building loop over `df.iterrows()`, lines 152–177: one
optional circle per row, in row order. Totality of this function is the
no-error part of the loop's behavior. -/
def buildCircles (rows : List Row) : List Circle :=
  rows.filterMap rowCircle

/-- `df['x'].mean()` (line 147): pandas skips null cells; the mean of no
valid cells is `NaN`, modelled as `none`. -/
def meanX (rows : List Row) : Option ℚ :=
  let vs := rows.filterMap Row.x
  if vs.isEmpty then none else some (vs.sum / vs.length)

/-- `df['y'].mean()` (line 147), as `meanX`. -/
def meanY (rows : List Row) : Option ℚ :=
  let vs := rows.filterMap Row.y
  if vs.isEmpty then none else some (vs.sum / vs.length)

/-- The module-level map setup of `app.py`, lines 144–149: with a truthy
(nonempty) `address` the center is whatever pair `lat_long` returned — the
geocoded point or the null pair — and `zoom_start` is 15; with an empty
`address` the center is the column means and `zoom_start` is 8. The result
is `((longitude, latitude), zoom)`; `folium.Map` receives the center as
`[latitude, longitude]`. -/
def mapCenterZoom (address : String) (resp : GeoResponse) (rows : List Row) :
    (Option ℚ × Option ℚ) × Nat :=
  if address ≠ "" then (lat_long resp, 15)
  else ((meanX rows, meanY rows), 8)

/-- A `folium.Marker` added by `mark_address_on_map`, line 120:
`folium.Marker([y, x], popup=address)`. -/
structure FoliumMarker where
  lat : ℚ
  lng : ℚ
  popup : String
  deriving DecidableEq, Repr

/-- The mutable `folium.Map` state that `mark_address_on_map` touches: its
list of markers, in insertion order. -/
structure FoliumMap where
  markers : List FoliumMarker
  deriving DecidableEq, Repr

/-- `mark_address_on_map(address, folium_map, rest_api_key)`, lines 114–121:
it calls `lat_long`; if either coordinate is `None` it returns with the map
unchanged; otherwise it adds one marker at `[y, x]` whose popup is the raw
address text. -/
def mark_address_on_map (address : String) (folium_map : FoliumMap)
    (resp : GeoResponse) : FoliumMap :=
  match lat_long resp with
  | (some x, some y) =>
      { folium_map with
          markers := folium_map.markers ++ [{ lat := y, lng := x, popup := address }] }
  | _ => folium_map

/-- Insert a key into an ascending list of keys, keeping it sorted. -/
def insortKey (d : String) : List String → List String
  | [] => [d]
  | e :: es => if d < e then d :: e :: es else e :: insortKey d es

/-- Ascending insertion sort of group keys; `pandas.groupby` sorts group
keys ascending by default. -/
def sortKeys (l : List String) : List String :=
  l.foldr insortKey []

/-- `df.groupby('DST_RSK_DSTRCT_NM')['RSK_FACTR_CN'].apply(lambda x:
' | '.join(x.dropna()))` of `app.py`, line 264: one entry per distinct
district name (keys ascending, as `groupby` sorts them); the value is the
pipe-join of the group's non-null `RSK_FACTR_CN` cells, in row order
(`groupby` preserves within-group row order). -/
def risk_factor_content (rows : List Row) : List (String × String) :=
  (sortKeys (rows.map Row.nm).dedup).map fun d =>
    (d, String.intercalate " | "
          ((rows.filter (fun r => r.nm == d)).filterMap Row.rskFactrCn))

/-- `occursB v s` decides whether the character list `v` occurs contiguously
inside `s`. -/
def occursB (v : List Char) : List Char → Bool
  | [] => v.isEmpty
  | c :: cs => v.isPrefixOf (c :: cs) || occursB v cs

/-- The string `v` occurs contiguously inside the string `s`; used to state
that a popup embeds (the textual rendering of) a record field. -/
def occursIn (v s : String) : Prop :=
  occursB v.data s.data = true

instance (v s : String) : Decidable (occursIn v s) := by
  unfold occursIn; infer_instance

/-- Hexadecimal digit (uppercase) of a value below 16. -/
def hexDigit (n : Nat) : Char :=
  if n < 10 then Char.ofNat (48 + n) else Char.ofNat (55 + n)

/-- UTF-8 byte sequence of a Unicode code point. -/
def utf8Bytes (n : Nat) : List Nat :=
  if n < 128 then [n]
  else if n < 2048 then [192 + n / 64, 128 + n % 64]
  else if n < 65536 then [224 + n / 4096, 128 + n / 64 % 64, 128 + n % 64]
  else [240 + n / 262144, 128 + n / 4096 % 64, 128 + n / 64 % 64, 128 + n % 64]

/-- RFC 3986 unreserved characters, which URL-escaping leaves as-is. -/
def isUnreservedChar (c : Char) : Bool :=
  (65 ≤ c.toNat && c.toNat ≤ 90) || (97 ≤ c.toNat && c.toNat ≤ 122) ||
  (48 ≤ c.toNat && c.toNat ≤ 57) ||
  c = '-' || c = '.' || c = '_' || c = '~'

/-- Percent-encoding of one character: unreserved characters stand for
themselves, every other character becomes `%XX` per UTF-8 byte. -/
def urlEncodeChar (c : Char) : List Char :=
  if isUnreservedChar c then [c]
  else
    (utf8Bytes c.toNat).foldr
      (fun b acc => '%' :: hexDigit (b / 16) :: hexDigit (b % 16) :: acc) []

/-- Modelled from the spec: the URL-escaping (`percent-encoding`) that the
spec says the query parameter must undergo; `app.py` itself performs no
escaping, so this definition follows the spec's words for comparison. -/
def urlEncode (s : String) : String :=
  String.mk (s.data.foldr (fun c acc => urlEncodeChar c ++ acc) [])

/-- The example dataset row of the spec:
`{x: 126.71, y: 35.03, DSGN_AREA: 100, DST_RSK_DSTRCT_TYPE_CD: 2}`,
with the remaining descriptive cells filled in. -/
def exampleRow : Row :=
  { x := some (mkRat 12671 100), y := some (mkRat 3503 100),
    nm := "학산지구", grdCd := 1, typeCd := 2,
    dstrctCd := "D-01", rgnCd := "R-46", fcltNm := "배수펌프장",
    dsgnYmd := "2019-03-01", dsgnRsn := "상습침수",
    dsgnArea := some (mkRat 100 1), rskFactrCn := some "하천범람" }

/-- A row whose risk-factor description (`ZRISKZ`) and designated area
(`977`) appear nowhere else among its cells. -/
def areaRiskRow : Row :=
  { x := some (mkRat 1 1), y := some (mkRat 2 1),
    nm := "관리지구A", grdCd := 1, typeCd := 3,
    dstrctCd := "D", rgnCd := "R", fcltNm := "F",
    dsgnYmd := "Y", dsgnRsn := "S",
    dsgnArea := some (mkRat 977 1), rskFactrCn := some "ZRISKZ" }

/-- Two rows of one district (`garden`), each with a risk-factor cell. -/
def gardenRows : List Row :=
  [{ x := none, y := none, nm := "garden", grdCd := 1, typeCd := 2,
     dstrctCd := "d", rgnCd := "r", fcltNm := "f", dsgnYmd := "y",
     dsgnRsn := "s", dsgnArea := none, rskFactrCn := some "flood" },
   { x := none, y := none, nm := "garden", grdCd := 1, typeCd := 2,
     dstrctCd := "d", rgnCd := "r", fcltNm := "f", dsgnYmd := "y",
     dsgnRsn := "s", dsgnArea := none, rskFactrCn := some "slide" }]

theorem isPrefixOf_self_append (v t : List Char) : v.isPrefixOf (v ++ t) = true := by
  rw [List.isPrefixOf_iff_prefix]
  exact List.prefix_append v t

theorem occursB_cons (v : List Char) (c : Char) (s : List Char)
    (h : occursB v s = true) : occursB v (c :: s) = true := by
  simp [occursB, h]

theorem occursB_skip (v pre s : List Char) (h : occursB v s = true) :
    occursB v (pre ++ s) = true := by
  induction pre with
  | nil => simpa using h
  | cons c cs ih => exact occursB_cons v c (cs ++ s) ih

theorem occursB_here (v post : List Char) : occursB v (v ++ post) = true := by
  cases v with
  | nil =>
      cases post with
      | nil => rfl
      | cons c cs => simp [occursB, List.isPrefixOf]
  | cons c cs =>
      show occursB (c :: cs) (c :: (cs ++ post)) = true
      have h := isPrefixOf_self_append (c :: cs) post
      simp only [occursB, Bool.or_eq_true]
      exact Or.inl h

theorem mem_insortKey (a d : String) (l : List String) :
    a ∈ insortKey d l ↔ a = d ∨ a ∈ l := by
  induction l with
  | nil => simp [insortKey]
  | cons e es ih =>
      simp only [insortKey]
      split
      · simp [List.mem_cons]
      · simp only [List.mem_cons, ih]
        tauto

theorem mem_sortKeys (a : String) (l : List String) : a ∈ sortKeys l ↔ a ∈ l := by
  induction l with
  | nil => simp [sortKeys]
  | cons e es ih =>
      show a ∈ insortKey e (sortKeys es) ↔ _
      rw [mem_insortKey, ih]
      simp [List.mem_cons]

theorem lookup_keyed_map (keys : List String) (f : String → String) (d : String)
    (h : d ∈ keys) :
    List.lookup d (keys.map fun k => (k, f k)) = some (f d) := by
  induction keys with
  | nil => cases h
  | cons k ks ih =>
      by_cases hdk : d = k
      · subst hdk
        simp [List.lookup]
      · have hb : (d == k) = false := by simpa using hdk
        have hm : d ∈ ks := by
          rcases List.mem_cons.mp h with h1 | h1
          · exact absurd h1 hdk
          · exact h1
        simpa [List.lookup, hb] using ih hm

theorem foldrEncode_unreserved (cs : List Char)
    (h : ∀ c ∈ cs, isUnreservedChar c = true) :
    cs.foldr (fun c acc => urlEncodeChar c ++ acc) [] = cs := by
  induction cs with
  | nil => rfl
  | cons c cs ih =>
      have hc : isUnreservedChar c = true := h c (List.mem_cons_self c cs)
      have ht := ih (fun x hx => h x (List.mem_cons_of_mem c hx))
      show urlEncodeChar c ++ List.foldr (fun c acc => urlEncodeChar c ++ acc) [] cs = c :: cs
      rw [ht]
      simp [urlEncodeChar, hc]

theorem urlEncode_unreserved (s : String)
    (h : ∀ c ∈ s.data, isUnreservedChar c = true) : urlEncode s = s := by
  show String.mk (s.data.foldr (fun c acc => urlEncodeChar c ++ acc) []) = s
  rw [foldrEncode_unreserved s.data h]

/-- C5: for every well-formed geocoder response whose `documents` array is
non-empty, `lat_long` returns the pair (longitude, latitude) equal to the
first document's `address.x` and `address.y` strings cast to floating
point. -/
theorem lat_long_first_document (d : KDoc) (ds : List KDoc) (a : KAddress)
    (fx fy : ℚ) (ha : d.address = some a)
    (hx : parseFloat a.x = some fx) (hy : parseFloat a.y = some fy) :
    lat_long (.ok (d :: ds)) = (some fx, some fy) := by
  simp [lat_long, ha, hx, hy]

/-- Witness for C5: the response whose first document carries
`x = "126.71"`, `y = "35.03"` geocodes to `(126.71, 35.03)`. -/
theorem lat_long_first_document_witness :
    lat_long (.ok [{ address := some { x := "126.71", y := "35.03" } }])
      = (some (mkRat 12671 100), some (mkRat 3503 100)) :=
  lat_long_first_document _ [] _ _ _ rfl (by decide) (by decide)

/-- C6: for every failing geocoder interaction (network failure, non-2xx
or malformed response body, empty `documents`, missing `address` object, or
non-numeric coordinate strings), `lat_long` returns the null coordinate
pair; being a total Lean function, it propagates no exception. -/
theorem lat_long_failure_null_pair (resp : GeoResponse) (h : resp.failing) :
    lat_long resp = (none, none) := by
  match resp with
  | .netErr => rfl
  | .badBody => rfl
  | .ok [] => rfl
  | .ok (d :: ds) =>
      match hd : d.address with
      | none => simp [lat_long, hd]
      | some a =>
          have h2 : parseFloat a.x = none ∨ parseFloat a.y = none := by
            simpa [GeoResponse.failing, hd] using h
          cases hx : parseFloat a.x <;> cases hy : parseFloat a.y <;>
            simp [lat_long, hd, hx, hy]
          rw [hx, hy] at h2
          simp at h2

/-- Witness for C6: a network failure yields the null pair. -/
theorem lat_long_failure_null_pair_witness :
    GeoResponse.failing .netErr ∧ lat_long .netErr = (none, none) :=
  ⟨trivial, lat_long_failure_null_pair .netErr trivial⟩

/-- C7: a circle is produced for a row exactly when its `y`, `x` and
`DSGN_AREA` cells are all non-null, and the loop produces exactly one
circle per such row (rows failing the guard are skipped; totality of
`buildCircles` is the no-error part). -/
theorem circle_iff_nonnull :
    (∀ r : Row, (rowCircle r).isSome
        = (r.y.isSome && r.x.isSome && r.dsgnArea.isSome))
    ∧ ∀ rows : List Row,
        (buildCircles rows).length
          = (rows.filter fun r =>
              r.y.isSome && r.x.isSome && r.dsgnArea.isSome).length := by
  have hr : ∀ r : Row, (rowCircle r).isSome
      = (r.y.isSome && r.x.isSome && r.dsgnArea.isSome) := by
    intro r
    cases hy : r.y <;> cases hx : r.x <;> cases ha : r.dsgnArea <;>
      simp [rowCircle, hy, hx, ha]
  refine ⟨hr, ?_⟩
  intro rows
  induction rows with
  | nil => rfl
  | cons r rs ih =>
      by_cases h : (r.y.isSome && r.x.isSome && r.dsgnArea.isSome) = true
      · have hs : (rowCircle r).isSome = true := (hr r).trans h
        obtain ⟨c, hc⟩ := Option.isSome_iff_exists.mp hs
        simp only [buildCircles, List.filterMap_cons, hc, List.filter_cons, h,
          if_true, List.length_cons]
        simpa [buildCircles] using ih
      · have hs : (rowCircle r).isSome = false := by
          rw [hr r]
          simpa using h
        have hn : rowCircle r = none := by
          cases hcc : rowCircle r
          · rfl
          · rw [hcc] at hs; simp at hs
        simp only [buildCircles, List.filterMap_cons, hn, List.filter_cons, h]
        simpa [buildCircles] using ih

/-- C10: `mark_address_on_map` leaves the map unchanged when `lat_long`
returned a pair with a `None` component, and otherwise appends exactly one
marker at `(y, x)` whose popup is the raw address text — the map gains a
marker if and only if geocoding succeeded. -/
theorem marker_iff_geocoded :
    (∀ (address : String) (m : FoliumMap) (resp : GeoResponse),
        ((lat_long resp).1 = none ∨ (lat_long resp).2 = none) →
          mark_address_on_map address m resp = m)
    ∧ (∀ (address : String) (m : FoliumMap) (resp : GeoResponse) (x y : ℚ),
        lat_long resp = (some x, some y) →
          (mark_address_on_map address m resp).markers
            = m.markers ++ [{ lat := y, lng := x, popup := address }]) := by
  constructor
  · intro address m resp h
    rcases hl : lat_long resp with ⟨ox, oy⟩
    rw [hl] at h
    cases ox <;> cases oy
    · simp [mark_address_on_map, hl]
    · simp [mark_address_on_map, hl]
    · simp [mark_address_on_map, hl]
    · simp at h
  · intro address m resp x y h
    simp [mark_address_on_map, h]

/-- Witness for C10: on the successful response the map gains exactly the
marker at the geocoded `(y, x)` carrying the raw address text. -/
theorem marker_iff_geocoded_witness :
    (mark_address_on_map "서울특별시 중구 세종대로 110" { markers := [] }
        (.ok [{ address := some { x := "126.71", y := "35.03" } }])).markers
      = [] ++ [{ lat := mkRat 3503 100, lng := mkRat 12671 100,
                 popup := "서울특별시 중구 세종대로 110" }] :=
  marker_iff_geocoded.2 _ _ _ _ _ (by decide)

/-- C1 (code-bug exhibit): with a supplied (nonempty) address whose
geocoding fails, lines 144–149 center the map at the null pair
`(None, None)` with zoom 15 — not at the dataset centroid with zoom 8 as
the claim requires. The centroid/zoom-8 branch is taken only when no
address is supplied (last conjunct); the second conjunct shows the centroid
was available for the failing pass. -/
theorem centering_failure_code_bug :
    mapCenterZoom "전남 나주시 노안면 학산길 70-17" .badBody [exampleRow]
      = ((none, none), 15)
    ∧ ((meanX [exampleRow], meanY [exampleRow]), 8)
      = ((some (mkRat 12671 100), some (mkRat 3503 100)), (8 : Nat))
    ∧ mapCenterZoom "전남 나주시 노안면 학산길 70-17" .badBody [exampleRow]
      ≠ ((meanX [exampleRow], meanY [exampleRow]), 8)
    ∧ (∀ (resp : GeoResponse) (rows : List Row),
        mapCenterZoom "" resp rows = ((meanX rows, meanY rows), 8)) := by
  have h1 : mapCenterZoom "전남 나주시 노안면 학산길 70-17" .badBody [exampleRow]
      = ((none, none), 15) := by decide
  have hx : meanX [exampleRow] = some (mkRat 12671 100) := by
    norm_num [meanX, exampleRow, List.filterMap]
  have hy : meanY [exampleRow] = some (mkRat 3503 100) := by
    norm_num [meanY, exampleRow, List.filterMap]
  refine ⟨h1, by rw [hx, hy], ?_, ?_⟩
  · rw [h1, hx, hy]
    simp
  · intro resp rows
    simp [mapCenterZoom]

/-- C2 counterexample: the default-address rendering pass issues two
geocode requests, not one — `lat_long` is called at line 145 for the
center and again at line 180 through `mark_address_on_map`. -/
theorem two_geocode_requests :
    (passGeocodeRequests "전남 나주시 노안면 학산길 70-17"
        "bf0070cbed9ecd623aeead721c91397b").length = 2
    ∧ (passGeocodeRequests "전남 나주시 노안면 학산길 70-17"
        "bf0070cbed9ecd623aeead721c91397b").length ≠ 1 := by
  constructor <;> decide

/-- C2 as amended: a rendering pass with a supplied address performs
exactly two geocode requests (one for the map center, one for the address
marker); a pass without an address performs none. -/
theorem passGeocodeRequests_count (address rest_api_key : String) :
    (passGeocodeRequests address rest_api_key).length
      = if address = "" then 0 else 2 := by
  by_cases h : address = "" <;> simp [passGeocodeRequests, h]

/-- C3 counterexample: for the address `"a b"` the URL built by `lat_long`
is not the endpoint followed by the URL-escaped address (`"a%20b"`): the
code concatenates the raw text. -/
theorem kakaoUrl_not_urlEscaped :
    urlEncode "a b" = "a%20b"
    ∧ (latLongRequest "a b" "key").url ≠ kakaoEndpoint ++ urlEncode "a b" := by
  constructor <;> decide

/-- C3 as amended: the request URL carries the raw (unescaped) address text
concatenated after `query=` — which coincides with the URL-escaped form
exactly when every character of the address is unreserved — and the request
carries the header `Authorization: KakaoAK ` followed by the API key. -/
theorem latLongRequest_raw_query_and_auth (address rest_api_key : String) :
    (latLongRequest address rest_api_key).url = kakaoEndpoint ++ address
    ∧ (latLongRequest address rest_api_key).authorization
        = "KakaoAK " ++ rest_api_key
    ∧ ((∀ c ∈ address.data, isUnreservedChar c = true) →
        (latLongRequest address rest_api_key).url
          = kakaoEndpoint ++ urlEncode address) := by
  refine ⟨rfl, rfl, ?_⟩
  intro h
  show kakaoEndpoint ++ address = kakaoEndpoint ++ urlEncode address
  rw [urlEncode_unreserved address h]

/-- Witness for C3's amended theorem at the all-unreserved address
`"abc"`. -/
theorem latLongRequest_raw_query_witness :
    (latLongRequest "abc" "key").url = kakaoEndpoint ++ urlEncode "abc" :=
  (latLongRequest_raw_query_and_auth "abc" "key").2.2 (by decide)

set_option maxRecDepth 16384 in
set_option maxHeartbeats 1600000 in
/-- C4 counterexample: for a record with all of grade, type and area
present, the circle's popup is `popup_content` of the row, yet neither the
row's risk-factor description (`ZRISKZ`) nor its designated area (`977`)
occurs in that popup text. -/
theorem popup_omits_area_and_risk_factor :
    (rowCircle areaRiskRow).map Circle.popup = some (popup_content areaRiskRow)
    ∧ areaRiskRow.rskFactrCn = some "ZRISKZ"
    ∧ areaRiskRow.dsgnArea = some (mkRat 977 1)
    ∧ ¬ occursIn "ZRISKZ" (popup_content areaRiskRow)
    ∧ ¬ occursIn "977" (popup_content areaRiskRow) := by
  refine ⟨rfl, rfl, rfl, ?_, ?_⟩ <;> decide

/-- C4 as amended: the circle's popup text is `popup_content` of its row,
which embeds the record's name, grade code, type code, district code,
region code, facility name, designation date and designation reason — and
is independent of the designated area and the risk-factor description,
which are not interpolated into it. -/
theorem popup_embeds_eight_fields :
    (∀ (r : Row) (c : Circle), rowCircle r = some c →
        c.popup = popup_content r)
    ∧ (∀ r : Row,
        occursIn r.nm (popup_content r)
        ∧ occursIn (toString r.grdCd) (popup_content r)
        ∧ occursIn (toString r.typeCd) (popup_content r)
        ∧ occursIn r.dstrctCd (popup_content r)
        ∧ occursIn r.rgnCd (popup_content r)
        ∧ occursIn r.fcltNm (popup_content r)
        ∧ occursIn r.dsgnYmd (popup_content r)
        ∧ occursIn r.dsgnRsn (popup_content r))
    ∧ (∀ (r : Row) (a : Option ℚ) (f : Option String),
        popup_content { r with dsgnArea := a, rskFactrCn := f }
          = popup_content r) := by
  refine ⟨?_, ?_, ?_⟩
  · intro r c h
    cases hy : r.y <;> cases hx : r.x <;> cases ha : r.dsgnArea <;>
      simp [rowCircle, hy, hx, ha] at h
    subst h
    rfl
  · intro r
    refine ⟨?_, ?_, ?_, ?_, ?_, ?_, ?_, ?_⟩ <;>
      · show occursB _ _ = true
        simp only [popup_content, String.data_append, List.append_assoc]
        repeat first
          | exact occursB_here _ _
          | apply occursB_skip
  · intro r a f
    rfl

/-- Witness for C4's amended theorem: the circle of `exampleRow` carries
`popup_content exampleRow` as its popup. -/
theorem popup_embeds_eight_fields_witness :
    ∃ c : Circle, rowCircle exampleRow = some c
      ∧ c.popup = popup_content exampleRow :=
  ⟨_, rfl, popup_embeds_eight_fields.1 exampleRow _ rfl⟩

/-- C8: every row with non-null `y`, `x` and `DSGN_AREA` yields a circle at
`(y, x)` whose radius is the square root of the designated area and whose
color comes from `color_map` keyed on the type code, `"red"` for unknown
codes; in particular the spec's example row yields a circle at
`(35.03, 126.71)` with radius 10 and color `"purple"`. -/
theorem circle_geometry_and_color :
    (∀ (r : Row) (y x a : ℚ), r.y = some y → r.x = some x →
        r.dsgnArea = some a →
        ∃ c, rowCircle r = some c ∧ c.lat = y ∧ c.lng = x
          ∧ c.radius = Real.sqrt (a : ℝ) ∧ c.color = color_map r.typeCd)
    ∧ (∀ t : Int, t ≠ 1 → t ≠ 2 → t ≠ 3 → t ≠ 4 → t ≠ 5 → t ≠ 6 →
        color_map t = "red")
    ∧ (∃ c, rowCircle exampleRow = some c ∧ c.lat = 35.03 ∧ c.lng = 126.71
        ∧ c.radius = 10 ∧ c.color = "purple") := by
  have main : ∀ (r : Row) (y x a : ℚ), r.y = some y → r.x = some x →
      r.dsgnArea = some a →
      ∃ c, rowCircle r = some c ∧ c.lat = y ∧ c.lng = x
        ∧ c.radius = Real.sqrt (a : ℝ) ∧ c.color = color_map r.typeCd := by
    intro r y x a hy hx ha
    refine ⟨{ lat := y, lng := x, area := a, color := color_map r.typeCd,
              fillColor := color_map r.typeCd, popup := popup_content r },
            ?_, rfl, rfl, rfl, rfl⟩
    simp [rowCircle, hy, hx, ha]
  refine ⟨main, ?_, ?_⟩
  · intro t h1 h2 h3 h4 h5 h6
    simp [color_map, h1, h2, h3, h4, h5, h6]
  · obtain ⟨c, hc, hlat, hlng, hrad, hcol⟩ :=
      main exampleRow (mkRat 3503 100) (mkRat 12671 100) (mkRat 100 1)
        rfl rfl rfl
    refine ⟨c, hc, ?_, ?_, ?_, ?_⟩
    · rw [hlat, Rat.mkRat_eq_div]
      norm_num
    · rw [hlng, Rat.mkRat_eq_div]
      norm_num
    · have h100 : ((mkRat 100 1 : ℚ) : ℝ) = 100 := by
        norm_num [Rat.mkRat_eq_div]
      rw [hrad, h100, show (100 : ℝ) = 10 ^ 2 by norm_num,
        Real.sqrt_sq (by norm_num : (0 : ℝ) ≤ 10)]
    · rw [hcol]
      decide

/-- Witness for C8's universal part at the spec's example row. -/
theorem circle_geometry_and_color_witness :
    ∃ c, rowCircle exampleRow = some c ∧ c.lat = mkRat 3503 100
      ∧ c.lng = mkRat 12671 100
      ∧ c.radius = Real.sqrt ((mkRat 100 1 : ℚ) : ℝ)
      ∧ c.color = color_map exampleRow.typeCd :=
  circle_geometry_and_color.1 exampleRow (mkRat 3503 100) (mkRat 12671 100)
    (mkRat 100 1) rfl rfl rfl

/-- C9: for each district name occurring in the dataset, the grouped
risk-factor aggregation of line 264 yields the pipe-joined, row-order
concatenation of the district's non-null risk-factor descriptions. -/
theorem risk_factors_by_district_join (rows : List Row) (d : String)
    (h : d ∈ rows.map Row.nm) :
    List.lookup d (risk_factor_content rows)
      = some (String.intercalate " | "
          ((rows.filter fun r => r.nm == d).filterMap Row.rskFactrCn)) := by
  have hk : d ∈ sortKeys (rows.map Row.nm).dedup := by
    rw [mem_sortKeys, List.mem_dedup]
    exact h
  exact lookup_keyed_map _
    (fun k => String.intercalate " | "
      ((rows.filter fun r => r.nm == k).filterMap Row.rskFactrCn)) d hk

/-- Witness for C9: the two `garden` rows aggregate to `"flood | slide"`. -/
theorem risk_factors_by_district_join_witness :
    List.lookup "garden" (risk_factor_content gardenRows)
      = some "flood | slide" := by
  have h := risk_factors_by_district_join gardenRows "garden" (by decide)
  rw [h]
  decide

end App
